import Mathlib

/-!
Verification development for the fabric-sdk-node event engine
(`fabric-client/lib/EventHub.js`) and the configuration-policy decoder of
the block decoder.  The JavaScript source is shallowly embedded: the
mutable `EventHub` object becomes a Lean structure passed explicitly,
callback functions are identified by numeric ids and an invocation of a
callback is recorded as a value in an output list, and thrown JavaScript
errors become `Except`/`Option String` results.
-/

namespace FabricSdk

/-! ### Association tables

`EventHub.js` keys its registries with the npm `hashtable` package
(`put`/`get`/`remove`/`size`/`forEach`) and JavaScript `Set`s.  We embed a
hashtable as an association list with unique keys: `put` replaces the value
of an existing key in place or appends a new binding. -/

def tblGet {α β : Type} [DecidableEq α] : List (α × β) → α → Option β
  | [], _ => none
  | (k2, v) :: rest, k => if k2 = k then some v else tblGet rest k

def tblPut {α β : Type} [DecidableEq α] : List (α × β) → α → β → List (α × β)
  | [], k, v => [(k, v)]
  | (k2, v2) :: rest, k, v =>
      if k2 = k then (k2, v) :: rest else (k2, v2) :: tblPut rest k v

def tblRemove {α β : Type} [DecidableEq α] : List (α × β) → α → List (α × β)
  | [], _ => []
  | (k2, v2) :: rest, k =>
      if k2 = k then rest else (k2, v2) :: tblRemove rest k

/-! ### The event-name filter

`ChainCodeCBE` compiles the caller-supplied pattern with
`new RegExp(eventNameFilter)` and matches with `RegExp.prototype.test`,
which performs an *unanchored* search.  We embed only the fragment of the
JavaScript pattern language exercised by the theorems below: literal
characters outside the JS metacharacter set, the wildcard `.`, and the
postfix repetition `*` applied to a single character or to `.` (so `".*"`
parses to `RE.starAny RE.emp`).  Patterns containing any other JS
metacharacter (`+`, `?`, anchors, brackets, alternation, escapes) are
outside the fragment: `parseRE` is not a faithful model for them, and
every theorem that relates a pattern string to matching behaviour
restricts itself to this fragment (via `noMeta` or a concrete in-fragment
pattern). -/

inductive RE : Type where
  | emp : RE
  | ch : Char → RE → RE
  | any : RE → RE
  | starCh : Char → RE → RE
  | starAny : RE → RE
deriving DecidableEq, Repr

/-- Parse a pattern string (as a character list) of the embedded fragment
into an `RE`: a `*` turns the atom before it into a repetition, `.` is
the wildcard, anything else a literal character.  Only meaningful for
patterns inside the fragment (see the section comment): a pattern
containing another JS metacharacter parses, but not to what `new RegExp`
means by it. -/
def parseRE : List Char → RE
  | [] => RE.emp
  | [c] => if c = '.' then RE.any RE.emp else RE.ch c RE.emp
  | c :: d :: rest =>
      if d = '*' then
        (if c = '.' then RE.starAny (parseRE rest) else RE.starCh c (parseRE rest))
      else
        (if c = '.' then RE.any (parseRE (d :: rest))
         else RE.ch c (parseRE (d :: rest)))

/-- The suffixes of a character list, longest first (including the list
itself and `[]`). -/
def suffixes : List Char → List (List Char)
  | [] => [[]]
  | c :: rest => (c :: rest) :: suffixes rest

/-- Length of the leading run of the character `c`. -/
def runLen (c : Char) : List Char → Nat
  | [] => 0
  | x :: xs => if x = c then runLen c xs + 1 else 0

/-- `matchPre re s` holds when `re` matches some prefix of `s`
(the anchored-at-the-left half of JavaScript regex search).  A starred
atom may consume any number of matching characters. -/
def matchPre : RE → List Char → Bool
  | RE.emp, _ => true
  | RE.ch c r, s =>
      match s with
      | [] => false
      | x :: xs => x = c && matchPre r xs
  | RE.any r, s =>
      match s with
      | [] => false
      | _ :: xs => matchPre r xs
  | RE.starCh c r, s =>
      (List.range (runLen c s + 1)).any (fun k => matchPre r (s.drop k))
  | RE.starAny r, s => (suffixes s).any (matchPre r)

/-- `RegExp.prototype.test`: unanchored search for a match starting at any
position of `s`. -/
def reSearch (re : RE) (s : List Char) : Bool :=
  (suffixes s).any (matchPre re)

/-- `new RegExp(pattern).test(s)` for the embedded pattern fragment. -/
def regexTest (pattern s : String) : Bool :=
  reSearch (parseRE pattern.data) s.data

/-! Plain substring machinery used to state what unanchored matching of a
metacharacter-free pattern amounts to. -/

def isPrefixL : List Char → List Char → Bool
  | [], _ => true
  | _ :: _, [] => false
  | a :: as, b :: bs => a = b && isPrefixL as bs

/-- `isSubL p s`: `p` occurs in `s` as a contiguous substring. -/
def isSubL (p s : List Char) : Bool :=
  (suffixes s).any (isPrefixL p)

/-- The characters `new RegExp` treats specially in a pattern. -/
def isMetaChar (c : Char) : Bool :=
  c = '.' || c = '*' || c = '+' || c = '?' || c = '^' || c = '$'
    || c = '|' || c = '\\' || c = '(' || c = ')' || c = '[' || c = ']'
    || c = '\x7b' || c = '\x7d'

/-- A pattern free of every JS regex metacharacter compiles to a plain
literal. -/
def noMeta (p : List Char) : Bool :=
  p.all (fun c => !(isMetaChar c))

/-! ### Decoded-block data model

What the event hub reads out of a block decoded by
`BlockDecoder.decodeBlock`: per envelope the `channel_header` (`type` is the
header-type *name*, compared against `_header_types[3] =
"ENDORSER_TRANSACTION"`; `tx_id` is a string), and the chaincode event the
chaincode pass digs out of
`payload.data.actions[0].payload.action.proposal_response_payload.extension.events`.
That navigation can throw on a malformed or event-less transaction; the
source catches the throw per envelope, so we embed the extraction as an
`Option` already attached to the envelope (`none` = the navigation threw). -/

structure CCEvent where
  chaincode_id : String
  event_name : String
deriving DecidableEq, Repr

structure ChannelHeader where
  type : String
  tx_id : String
deriving DecidableEq, Repr

structure Envelope where
  channel_header : ChannelHeader
  ccExtract : Option CCEvent
deriving DecidableEq, Repr

/-- `common.BlockMetadataIndex.TRANSACTIONS_FILTER` from
`protos/common/common.proto`: the index of the per-transaction
validation-code array inside `block.metadata.metadata`. -/
def TRANSACTIONS_FILTER : Nat := 2

structure Block where
  number : Nat
  data : List Envelope
  metadata : List (List Nat)
deriving DecidableEq, Repr

/-- The `TxValidationCode` enum of `protos/peer/transaction.proto`;
`EventHub.js` builds `_validation_codes` by inverting it, mapping each
numeric code back to its name. -/
def _validation_codes : List (Nat × String) :=
  [(0, "VALID"), (1, "NIL_ENVELOPE"), (2, "BAD_PAYLOAD"),
   (3, "BAD_COMMON_HEADER"), (4, "BAD_CREATOR_SIGNATURE"),
   (5, "INVALID_ENDORSER_TRANSACTION"), (6, "INVALID_CONFIG_TRANSACTION"),
   (7, "UNSUPPORTED_TX_PAYLOAD"), (8, "BAD_PROPOSAL_TXID"),
   (9, "DUPLICATE_TXID"), (10, "ENDORSEMENT_POLICY_FAILURE"),
   (11, "MVCC_READ_CONFLICT"), (12, "PHANTOM_READ_CONFLICT"),
   (13, "UNKNOWN_TX_TYPE"), (14, "TARGET_CHAIN_NOT_FOUND"),
   (15, "MARSHAL_TX_ERROR"), (16, "NIL_TXACTION"), (17, "EXPIRED_CHAINCODE"),
   (18, "CHAINCODE_VERSION_CONFLICT"), (19, "BAD_HEADER_EXTENSION"),
   (20, "BAD_CHANNEL_HEADER"), (21, "BAD_RESPONSE_PAYLOAD"),
   (22, "BAD_RWSET"), (23, "ILLEGAL_WRITESET"), (24, "INVALID_WRITESET"),
   (255, "INVALID_OTHER_REASON")]

def convertValidationCode (code : Nat) : Option String :=
  tblGet _validation_codes code

/-! ### The EventHub state

Callback functions are identified by numeric ids.  `ep` records whether a
peer address has been configured (`setPeerAddr`), `stream` is the grpc chat
stream handle with the two observables the hub consults (`isPaused`,
`call.channel_.getConnectivityState()`; state `2` is grpc READY). -/

structure GrpcStream where
  paused : Bool
  state : Nat
deriving DecidableEq, Repr

/-- A chaincode callback entry: the constructor compiles the
`eventNameFilter` pattern with `new RegExp`. -/
structure ChainCodeCBE where
  ccid : String
  eventNameFilter : RE
  onEvent : Nat
  onError : Option Nat
deriving DecidableEq, Repr

def mkChainCodeCBE (ccid eventname : String) (onEvent : Nat)
    (onError : Option Nat) : ChainCodeCBE :=
  ⟨ccid, parseRE eventname.data, onEvent, onError⟩

structure EventHub where
  chaincodeRegistrants : List (String × List ChainCodeCBE)
  block_registrant_count : Nat
  blockOnEvents : List (Nat × Nat)
  blockOnErrors : List (Nat × Nat)
  transactionOnEvents : List (String × Nat)
  transactionOnErrors : List (String × Nat)
  ep : Bool
  stream : Option GrpcStream
  connected : Bool
  force_reconnect : Bool
deriving DecidableEq, Repr

/-- The `EventHub` constructor state (the `clientContext` validation is
external to this model: a hub value exists only for a valid context). -/
def EventHub.new : EventHub where
  chaincodeRegistrants := []
  block_registrant_count := 1
  blockOnEvents := []
  blockOnErrors := []
  transactionOnEvents := []
  transactionOnErrors := []
  ep := false
  stream := none
  connected := false
  force_reconnect := true

/-- Externally observable side effects of a hub operation, in the order
they happen: an `onError` callback invocation, the creation of a fresh
grpc stream by `_connect`, a register/unregister message written to the
stream by `_sendRegistration`, and `stream.end()`. -/
inductive Action where
  | callErr (cb : Nat) (msg : String)
  | grpcConnect
  | sendReg (register : Bool)
  | streamEnd
deriving DecidableEq, Repr

def ehShutdownMsg : String := "EventHub has been shutdown"

/-- `_closeAllCallbacks`: invoke every registered `onError` across the
three registries with `msg`, then clear all of them. -/
def _closeAllCallbacks (hub : EventHub) (msg : String) :
    EventHub × List Action :=
  ({ hub with
      blockOnEvents := [], blockOnErrors := [],
      transactionOnEvents := [], transactionOnErrors := [],
      chaincodeRegistrants := [] },
   (hub.blockOnErrors.map (fun kv => Action.callErr kv.2 msg))
     ++ (hub.transactionOnErrors.map (fun kv => Action.callErr kv.2 msg))
     ++ (hub.chaincodeRegistrants.map (fun kv =>
           kv.2.filterMap (fun cbe =>
             cbe.onError.map (fun e => Action.callErr e msg)))).flatten)

/-- `disconnect()`: mark disconnected, close out every registry with the
shutdown error, and if a stream exists send an unregister and end it. -/
def disconnect (hub : EventHub) : EventHub × List Action :=
  let p := _closeAllCallbacks { hub with connected := false } ehShutdownMsg
  match p.1.stream with
  | some _ => (p.1, p.2 ++ [Action.sendReg false, Action.streamEnd])
  | none => (p.1, p.2)

/-- A freshly opened grpc chat stream: not paused, connectivity state
still IDLE. -/
def newStream : GrpcStream := ⟨false, 0⟩

/-- `_connect(force)`: no-op when already connected and not forced; throws
when no peer address was configured; otherwise opens a fresh stream, marks
the hub connected and sends the signed block-event registration. -/
def _connect (hub : EventHub) (force : Bool) :
    EventHub × List Action × Option String :=
  if !force && hub.connected then (hub, [], none)
  else if !hub.ep then
    (hub, [], some "Must set peer address before connecting.")
  else
    ({ hub with connected := true, stream := some newStream },
     [Action.grpcConnect, Action.sendReg true], none)

/-- `_checkConnection(throw_error, force_reconnect)`: the debug logging on
both the connected and the not-connected branch evaluates
`this.ep.getUrl()`, so on a hub with no peer address configured the read
of null `this.ep` throws a TypeError before any designed error path runs
(and outside any `try`).  Otherwise: throw when the hub is not connected
and `throw_error` is set; with `force_reconnect`, resume a paused stream
and reconnect when the stream's connectivity state is not READY (`2`);
reading the stream of a hub that never connected throws inside the `try`,
whose `catch` disconnects the hub and rethrows. -/
def _checkConnection (hub : EventHub) (throw_error force_reconnect : Bool) :
    EventHub × List Action × Option String :=
  if !hub.ep then
    (hub, [], some "TypeError: Cannot read property 'getUrl' of null")
  else if throw_error && !hub.connected then
    (hub, [], some "The event hub has not been connected to the event source")
  else if force_reconnect then
    match hub.stream with
    | none =>
        let p := disconnect hub
        (p.1, p.2, some "Event hub is not connected ")
    | some st =>
        let hub1 : EventHub := { hub with stream := some { st with paused := false } }
        if st.state != 2 then
          match _connect hub1 true with
          | (h, a, none) => (h, a, none)
          | (_, a, some _) =>
              let p := disconnect hub1
              (p.1, a ++ p.2, some "Event hub is not connected ")
        else (hub1, [], none)
  else (hub, [], none)

/-! ### Registration API -/

instance exceptDecEq {ε α : Type} [DecidableEq ε] [DecidableEq α] :
    DecidableEq (Except ε α)
  | .error e1, .error e2 =>
      if h : e1 = e2 then isTrue (by rw [h]) else isFalse (by simp [h])
  | .error _, .ok _ => isFalse (by simp)
  | .ok _, .error _ => isFalse (by simp)
  | .ok a1, .ok a2 =>
      if h : a1 = a2 then isTrue (by rw [h]) else isFalse (by simp [h])

/-- Result of a registration call: the hub state after the call, the side
effects it produced, and the returned value or the thrown error. -/
structure RegResult (α : Type) where
  hub : EventHub
  acts : List Action
  res : Except String α
deriving Repr

/-- `registerChaincodeEvent(ccid, eventname, onEvent, onError)`. -/
def registerChaincodeEvent (hub : EventHub) (ccid eventname : String)
    (onEvent : Nat) (onError : Option Nat) : RegResult ChainCodeCBE :=
  if ccid = "" then ⟨hub, [], .error "Missing \"ccid\" parameter"⟩
  else if eventname = "" then ⟨hub, [], .error "Missing \"eventname\" parameter"⟩
  else
    let have_error_cb := onError.isSome
    match _checkConnection hub (!have_error_cb) false with
    | (h1, a1, some err) => ⟨h1, a1, .error err⟩
    | (h1, a1, none) =>
      let cbe := mkChainCodeCBE ccid eventname onEvent onError
      let cbtable := (tblGet h1.chaincodeRegistrants ccid).getD []
      let h2 := { h1 with
        chaincodeRegistrants :=
          tblPut h1.chaincodeRegistrants ccid (cbtable ++ [cbe]) }
      if have_error_cb then
        match _checkConnection h2 false h2.force_reconnect with
        | (h3, a2, some err) => ⟨h3, a1 ++ a2, .error err⟩
        | (h3, a2, none) => ⟨h3, a1 ++ a2, .ok cbe⟩
      else ⟨h2, a1, .ok cbe⟩

/-- `registerBlockEvent(onEvent, onError)`: returns the block registration
number. -/
def registerBlockEvent (hub : EventHub) (onEvent : Nat)
    (onError : Option Nat) : RegResult Nat :=
  let have_error_cb := onError.isSome
  match _checkConnection hub (!have_error_cb) false with
  | (h1, a1, some err) => ⟨h1, a1, .error err⟩
  | (h1, a1, none) =>
    let block_registration_number := h1.block_registrant_count
    let h2 := { h1 with
      block_registrant_count := block_registration_number + 1,
      blockOnEvents := tblPut h1.blockOnEvents block_registration_number onEvent }
    match onError with
    | some oe =>
        let h3 := { h2 with
          blockOnErrors := tblPut h2.blockOnErrors block_registration_number oe }
        match _checkConnection h3 false h3.force_reconnect with
        | (h4, a2, some err) => ⟨h4, a1 ++ a2, .error err⟩
        | (h4, a2, none) => ⟨h4, a1 ++ a2, .ok block_registration_number⟩
    | none => ⟨h2, a1, .ok block_registration_number⟩

/-- `registerTxEvent(txid, onEvent, onError)`. -/
def registerTxEvent (hub : EventHub) (txid : String) (onEvent : Nat)
    (onError : Option Nat) : RegResult Unit :=
  if txid = "" then ⟨hub, [], .error "Missing \"txid\" parameter"⟩
  else
    let have_error_cb := onError.isSome
    match _checkConnection hub (!have_error_cb) false with
    | (h1, a1, some err) => ⟨h1, a1, .error err⟩
    | (h1, a1, none) =>
      let h2 := { h1 with
        transactionOnEvents := tblPut h1.transactionOnEvents txid onEvent }
      match onError with
      | some oe =>
          let h3 := { h2 with
            transactionOnErrors := tblPut h2.transactionOnErrors txid oe }
          match _checkConnection h3 false h3.force_reconnect with
          | (h4, a2, some err) => ⟨h4, a1 ++ a2, .error err⟩
          | (h4, a2, none) => ⟨h4, a1 ++ a2, .ok ()⟩
      | none => ⟨h2, a1, .ok ()⟩

/-! ### Stream terminal-signal handlers

The closures installed by `_connect` on the grpc stream, and the
registration-send timeout armed at the top of `_connect`.  The `end` and
`error` handlers guard with `if (self.connected)`; the timeout handler
calls `self.disconnect()` with no guard. -/

def onStreamEnd (hub : EventHub) : EventHub × List Action :=
  if hub.connected then disconnect hub else (hub, [])

def onStreamError (hub : EventHub) : EventHub × List Action :=
  if hub.connected then disconnect hub else (hub, [])

def onSendTimeout (hub : EventHub) : EventHub × List Action :=
  disconnect hub

/-! ### Dispatch passes -/

/-- An invocation of a block listener: the callback id (each receives the
whole decoded block). -/
def _processBlockOnEvents (hub : EventHub) (_block : Block) : List Nat :=
  if hub.blockOnEvents.isEmpty then []
  else hub.blockOnEvents.map (fun kv => kv.2)

structure TxInvocation where
  cb : Nat
  tx_id : String
  val_code : Option String
deriving DecidableEq, Repr

/-- The `for` loop of `_processTxOnEvents`, carrying the running envelope
index used to look up the validation code. -/
def txLoop (hub : EventHub) (txStatusCodes : List Nat) :
    Nat → List Envelope → List TxInvocation
  | _, [] => []
  | index, env :: rest =>
      let val_code := (txStatusCodes.get? index).bind convertValidationCode
      match tblGet hub.transactionOnEvents env.channel_header.tx_id with
      | some cb =>
          ⟨cb, env.channel_header.tx_id, val_code⟩
            :: txLoop hub txStatusCodes (index + 1) rest
      | none => txLoop hub txStatusCodes (index + 1) rest

def _processTxOnEvents (hub : EventHub) (block : Block) : List TxInvocation :=
  if hub.transactionOnEvents.isEmpty then []
  else txLoop hub (block.metadata.getD TRANSACTIONS_FILTER []) 0 block.data

structure CCInvocation where
  cb : Nat
  event : CCEvent
deriving DecidableEq, Repr

/-- The `for` loop of `_processChainCodeOnEvents`.  Within each iteration
the whole body sits in a `try`: a throw during chaincode-event extraction
is caught and the loop continues (`ccExtract = none`); a missing
registration set for the event's chaincode id executes `return`, which
exits the *function*, dropping the remaining envelopes. -/
def ccLoop (hub : EventHub) : List Envelope → List CCInvocation
  | [] => []
  | env :: rest =>
      if env.channel_header.type = "ENDORSER_TRANSACTION" then
        match env.ccExtract with
        | none => ccLoop hub rest
        | some ccEvent =>
            match tblGet hub.chaincodeRegistrants ccEvent.chaincode_id with
            | none => []
            | some cbtable =>
                (cbtable.filterMap (fun cbe =>
                  if reSearch cbe.eventNameFilter ccEvent.event_name.data
                  then some ⟨cbe.onEvent, ccEvent⟩ else none))
                  ++ ccLoop hub rest
      else ccLoop hub rest

def _processChainCodeOnEvents (hub : EventHub) (block : Block) :
    List CCInvocation :=
  if hub.chaincodeRegistrants.isEmpty then [] else ccLoop hub block.data

/-! ### Configuration-policy decoder -/

/-- The `common.Policy.PolicyType` wire values. -/
def PolicyType_SIGNATURE : Nat := 1
def PolicyType_MSP : Nat := 2
def PolicyType_IMPLICIT_META : Nat := 3

/-- The decoded policy body.  The `SIGNATURE` and `IMPLICIT_META` payload
contents are decoded from opaque protobuf value bytes external to this
model, so the bodies are kept as tags; the claims under verification
concern only which type decodes, warns, or throws. -/
inductive DecodedPolicyBody where
  | signaturePolicy
  | implicitMetaPolicy
  | mspPlaceholder
deriving DecidableEq, Repr

structure DecodedPolicy where
  version : Nat
  mod_policy : String
  body : DecodedPolicyBody
deriving DecidableEq, Repr

/-- Modelled from the spec: `decodeConfigPolicy` of
`fabric-client/lib/Block.js` is not under `src/` (only its unit test is),
so this follows the spec's contract, with the diagnostic warning returned
alongside the value as the spec's design notes direct: `SIGNATURE` and
`IMPLICIT_META` decode without warnings; `MSP` is a legal wire value that
is not semantically decoded — it warns once, naming the policy and the
unsupported type, and returns a structurally valid placeholder; any other
type value throws `Unknown Policy type` and yields no partial result. -/
def decodeConfigPolicy (name : String) (version : Nat) (mod_policy : String)
    (typ : Nat) : Except String (DecodedPolicy × List String) :=
  if typ = PolicyType_SIGNATURE then
    .ok (⟨version, mod_policy, .signaturePolicy⟩, [])
  else if typ = PolicyType_MSP then
    .ok (⟨version, mod_policy, .mspPlaceholder⟩,
         ["decodeConfigPolicy - found a PolicyType of MSP for policy " ++ name])
  else if typ = PolicyType_IMPLICIT_META then
    .ok (⟨version, mod_policy, .implicitMetaPolicy⟩, [])
  else
    .error ("Unknown Policy type of " ++ toString typ)

/-! ### Specification-side descriptions

Definitions written from the spec's wording, to be compared with the
source-embedded dispatch functions above. -/

/-- Per-index transaction dispatch as the spec words it: at index `i`,
read that envelope's `tx_id` and the `i`-th validation code; an invocation
happens exactly when a transaction registration exists for the `tx_id`. -/
def txInvAt (hub : EventHub) (block : Block) (i : Nat) : Option TxInvocation :=
  (block.data.get? i).bind (fun env =>
    (tblGet hub.transactionOnEvents env.channel_header.tx_id).map (fun cb =>
      ⟨cb, env.channel_header.tx_id,
       ((block.metadata.getD TRANSACTIONS_FILTER []).get? i).bind
         convertValidationCode⟩))

/-- Per-envelope chaincode dispatch as the spec words it: for an
`ENDORSER_TRANSACTION` envelope with an extractable chaincode event, the
`onEvent` of every registration for that chaincode id whose compiled
name-pattern matches the event name. -/
def ccMatched (hub : EventHub) (env : Envelope) : List CCInvocation :=
  if env.channel_header.type = "ENDORSER_TRANSACTION" then
    match env.ccExtract with
    | some ev =>
        ((tblGet hub.chaincodeRegistrants ev.chaincode_id).getD []).filterMap
          (fun cbe =>
            if reSearch cbe.eventNameFilter ev.event_name.data
            then some ⟨cbe.onEvent, ev⟩ else none)
    | none => []
  else []

/-- An envelope is *covered* by the hub's chaincode registry when it cannot
trigger the missing-registration path: either it is not an
`ENDORSER_TRANSACTION`, or its event extraction throws, or its chaincode id
has a registration set. -/
def ccCovered (hub : EventHub) (env : Envelope) : Bool :=
  if env.channel_header.type = "ENDORSER_TRANSACTION" then
    match env.ccExtract with
    | some ev => (tblGet hub.chaincodeRegistrants ev.chaincode_id).isSome
    | none => true
  else true

/-! ### Concrete fixtures used by the closed theorems -/

/-- An endorser envelope carrying a chaincode event for `ccX`. -/
def envX : Envelope := ⟨⟨"ENDORSER_TRANSACTION", "t1"⟩, some ⟨"ccX", "e"⟩⟩

/-- An endorser envelope carrying a chaincode event for `ccY`. -/
def envY : Envelope := ⟨⟨"ENDORSER_TRANSACTION", "t2"⟩, some ⟨"ccY", "e"⟩⟩

/-- A hub with a single catch-all chaincode registration for `ccY`. -/
def hubC1 : EventHub :=
  { EventHub.new with
    connected := true,
    chaincodeRegistrants := [("ccY", [mkChainCodeCBE "ccY" ".*" 5 none])] }

/-- A connected hub with one transaction registration for `"tx2"`. -/
def hubTx : EventHub :=
  { EventHub.new with connected := true, transactionOnEvents := [("tx2", 21)] }

/-- A three-envelope block whose validation-code array marks the second
transaction `VALID`. -/
def blk3 : Block :=
  ⟨7, [⟨⟨"ENDORSER_TRANSACTION", "tx1"⟩, none⟩,
       ⟨⟨"ENDORSER_TRANSACTION", "tx2"⟩, none⟩,
       ⟨⟨"ENDORSER_TRANSACTION", "tx3"⟩, none⟩],
   [[], [], [1, 0, 1]]⟩

/-- A hub with a peer address configured but never connected (no stream). -/
def hubFresh : EventHub := { EventHub.new with ep := true }

/-- A connected hub with two chaincode registrations for chaincode `ccq`:
pattern `"evtA"` with callback 11 and pattern `".*"` with callback 12. -/
def hubC7 : EventHub :=
  { EventHub.new with
    connected := true,
    chaincodeRegistrants :=
      [("ccq", [mkChainCodeCBE "ccq" "evtA" 11 none,
                mkChainCodeCBE "ccq" ".*" 12 none])] }

/-- A one-envelope block carrying a `ccq` chaincode event named `en`. -/
def blkEvt (en : String) : Block :=
  ⟨0, [⟨⟨"ENDORSER_TRANSACTION", "t"⟩, some ⟨"ccq", en⟩⟩], []⟩

/-- A disconnected hub that still has its (READY) stream and a block
listener with an `onError`: the state left by registering on a
disconnected hub whose grpc channel still reports READY. -/
def hubD8 : EventHub :=
  { EventHub.new with
    ep := true, stream := some ⟨false, 2⟩,
    blockOnEvents := [(1, 8)], blockOnErrors := [(1, 9)] }

/-- A connected hub holding one registration of each kind, every one with
an `onError` callback. -/
def hubW4 : EventHub :=
  { EventHub.new with
    connected := true, ep := true, stream := some ⟨false, 2⟩,
    blockOnEvents := [(1, 8)], blockOnErrors := [(1, 9)],
    transactionOnEvents := [("t", 10)], transactionOnErrors := [("t", 11)],
    chaincodeRegistrants := [("cc", [mkChainCodeCBE "cc" "e" 12 (some 13)])] }

/-- A plain connected hub (peer address set, stream READY). -/
def hubConn : EventHub :=
  { EventHub.new with
    connected := true, ep := true, stream := some ⟨false, 2⟩ }

/-- A hub with one chaincode registration for chaincode `cc` whose
name pattern is `p`, with callback 7. -/
def hubPat (p : String) : EventHub :=
  { EventHub.new with
    connected := true,
    chaincodeRegistrants := [("cc", [mkChainCodeCBE "cc" p 7 none])] }

/-- A one-envelope block carrying a `cc` chaincode event named `en`. -/
def blkName (en : String) : Block :=
  ⟨0, [⟨⟨"ENDORSER_TRANSACTION", "t"⟩, some ⟨"cc", en⟩⟩], []⟩

/-! ### Substring and pattern-matching lemmas -/

theorem isPrefixL_refl (l : List Char) : isPrefixL l l = true := by
  induction l with
  | nil => rfl
  | cons a as ih => simp [isPrefixL, ih]

theorem isPrefixL_append (p a b : List Char) (h : isPrefixL p a = true) :
    isPrefixL p (a ++ b) = true := by
  induction p generalizing a with
  | nil => rfl
  | cons x xs ih =>
      cases a with
      | nil => simp [isPrefixL] at h
      | cons y ys =>
          simp only [isPrefixL, Bool.and_eq_true] at h
          simp only [List.cons_append, isPrefixL, Bool.and_eq_true]
          exact ⟨h.1, ih ys h.2⟩

theorem isSubL_cons (p : List Char) (c : Char) (s : List Char) :
    isSubL p (c :: s) = (isPrefixL p (c :: s) || isSubL p s) := rfl

theorem isSubL_append_right (a b : List Char) : isSubL b (a ++ b) = true := by
  induction a with
  | nil =>
      cases b with
      | nil => rfl
      | cons c s =>
          simp only [List.nil_append, isSubL_cons, isPrefixL_refl, Bool.true_or]
  | cons x xs ih => simp only [List.cons_append, isSubL_cons, ih, Bool.or_true]

theorem isSubL_append_left (p a b : List Char) (h : isSubL p a = true) :
    isSubL p (a ++ b) = true := by
  induction a with
  | nil =>
      cases p with
      | nil =>
          cases b with
          | nil => rfl
          | cons c s => simp [isSubL_cons, isPrefixL]
      | cons x xs => simp [isSubL, suffixes, isPrefixL] at h
  | cons y ys ih =>
      rw [isSubL_cons] at h
      rcases Bool.or_eq_true_iff.mp h with h1 | h2
      · have h3 := isPrefixL_append p (y :: ys) b h1
        rw [List.cons_append] at h3
        rw [List.cons_append, isSubL_cons, h3, Bool.true_or]
      · rw [List.cons_append, isSubL_cons, ih h2, Bool.or_true]

theorem noMeta_cons_head {a : Char} {l : List Char}
    (h : noMeta (a :: l) = true) : ¬(a = '.') ∧ ¬(a = '*') := by
  have hm : isMetaChar a = false := by
    simp only [noMeta, List.all_cons, Bool.and_eq_true] at h
    simpa using h.1
  constructor <;> intro heq <;> rw [heq] at hm <;>
    exact absurd hm (by decide)

theorem noMeta_cons_tail {a : Char} {l : List Char}
    (h : noMeta (a :: l) = true) : noMeta l = true := by
  simp only [noMeta, List.all_cons, Bool.and_eq_true] at h
  simpa [noMeta] using h.2

/-- A metacharacter-free pattern compiles to a plain literal: anchored
matching of its parse is exactly the prefix test. -/
theorem matchPre_parse_noMeta :
    ∀ (p : List Char), noMeta p = true →
      ∀ (s : List Char), matchPre (parseRE p) s = isPrefixL p s
  | [], _, _ => rfl
  | [c], h, s => by
      have hc : ¬(c = '.') := (noMeta_cons_head h).1
      rw [show parseRE [c] = RE.ch c RE.emp from by simp [parseRE, hc]]
      cases s with
      | nil => rfl
      | cons x xs =>
          by_cases hxc : x = c
          · subst hxc; simp [matchPre, isPrefixL]
          · simp [matchPre, isPrefixL, hxc, Ne.symm hxc]
  | c :: d :: rest, h, s => by
      have hc : ¬(c = '.') := (noMeta_cons_head h).1
      have hrest : noMeta (d :: rest) = true := noMeta_cons_tail h
      have hd : ¬(d = '*') := (noMeta_cons_head hrest).2
      rw [show parseRE (c :: d :: rest) = RE.ch c (parseRE (d :: rest)) from
        by simp [parseRE, hc, hd]]
      cases s with
      | nil => rfl
      | cons x xs =>
          have ihx := matchPre_parse_noMeta (d :: rest) hrest xs
          by_cases hxc : x = c
          · subst hxc; simp [matchPre, isPrefixL, ihx]
          · simp [matchPre, isPrefixL, hxc, Ne.symm hxc]

/-- Unanchored matching of a metacharacter-free pattern is the substring
test: what `new RegExp(p).test(s)` amounts to for a literal `p`. -/
theorem reSearch_parse_noMeta (p : List Char) (h : noMeta p = true)
    (s : List Char) : reSearch (parseRE p) s = isSubL p s := by
  have hf : matchPre (parseRE p) = isPrefixL p :=
    funext (matchPre_parse_noMeta p h)
  simp [reSearch, isSubL, hf]

/-! ### Table lemmas -/

theorem tblGet_put_self {α β : Type} [DecidableEq α] (m : List (α × β))
    (k : α) (v : β) : tblGet (tblPut m k v) k = some v := by
  induction m with
  | nil => simp [tblPut, tblGet]
  | cons kv rest ih =>
      obtain ⟨k2, v2⟩ := kv
      by_cases hk : k2 = k
      · simp [tblPut, hk, tblGet]
      · simp [tblPut, hk, tblGet, ih]

theorem tblPut_mem_self {α β : Type} [DecidableEq α] (m : List (α × β))
    (k : α) (v : β) : (k, v) ∈ tblPut m k v := by
  induction m with
  | nil => simp [tblPut]
  | cons kv rest ih =>
      obtain ⟨k2, v2⟩ := kv
      by_cases hk : k2 = k
      · subst hk; simp [tblPut]
      · simp [tblPut, hk]
        right
        exact ih

/-! ### Dispatch-loop lemmas -/

theorem filterMap_ext {α β : Type} (f g : α → Option β) (l : List α)
    (h : ∀ a, f a = g a) : l.filterMap f = l.filterMap g := by
  rw [funext h]

/-- The transaction loop started at index `k` produces, index by index in
order, exactly the registered-transaction invocations. -/
theorem txLoop_eq (hub : EventHub) (codes : List Nat) :
    ∀ (envs : List Envelope) (k : Nat),
      txLoop hub codes k envs =
        (List.range envs.length).filterMap (fun j =>
          (envs.get? j).bind (fun env =>
            (tblGet hub.transactionOnEvents env.channel_header.tx_id).map
              (fun cb => ⟨cb, env.channel_header.tx_id,
                (codes.get? (k + j)).bind convertValidationCode⟩)))
  | [], k => by simp [txLoop]
  | env :: rest, k => by
      have ih := txLoop_eq hub codes rest (k + 1)
      have harith : ∀ j : Nat, k + (j + 1) = (k + 1) + j := by omega
      rw [List.length_cons, List.range_succ_eq_map, List.filterMap_cons]
      cases hcb : tblGet hub.transactionOnEvents env.channel_header.tx_id with
      | none =>
          simp only [txLoop, hcb, List.get?_cons_zero, Option.some_bind,
            Option.map_none', List.filterMap_map]
          rw [ih]
          refine (filterMap_ext _ _ _ (fun j => ?_)).symm
          simp only [Function.comp_apply, List.get?_cons_succ,
            Nat.succ_eq_add_one, harith j]
      | some cb =>
          simp only [txLoop, hcb, List.get?_cons_zero, Option.some_bind,
            Option.map_some', Nat.add_zero, List.filterMap_map]
          rw [ih]
          refine congrArg₂ List.cons rfl ?_
          refine (filterMap_ext _ _ _ (fun j => ?_)).symm
          simp only [Function.comp_apply, List.get?_cons_succ,
            Nat.succ_eq_add_one, harith j]

/-- With an empty chaincode registry nothing ever matches. -/
theorem ccMatched_empty (hub : EventHub) (env : Envelope)
    (h : hub.chaincodeRegistrants = []) : ccMatched hub env = [] := by
  unfold ccMatched
  split
  · cases env.ccExtract <;> simp [h, tblGet]
  · rfl

/-- When every envelope's chaincode id is covered by the registry, the
chaincode loop produces per envelope, in order, exactly the invocations of
the matching registrations. -/
theorem ccLoop_covered (hub : EventHub) :
    ∀ (envs : List Envelope), (∀ env ∈ envs, ccCovered hub env = true) →
      ccLoop hub envs = (envs.map (ccMatched hub)).flatten
  | [], _ => rfl
  | env :: rest, h => by
      have hrest := ccLoop_covered hub rest (fun e he => h e (List.mem_cons_of_mem _ he))
      have henv := h env (List.mem_cons_self _ _)
      by_cases ht : env.channel_header.type = "ENDORSER_TRANSACTION"
      · cases hx : env.ccExtract with
        | none =>
            simp only [ccLoop, ht, if_true, hx, List.map_cons, List.flatten_cons,
              hrest, ccMatched, List.nil_append]
        | some ev =>
            unfold ccCovered at henv
            rw [if_pos ht, hx] at henv
            obtain ⟨tbl, htbl⟩ := Option.isSome_iff_exists.mp henv
            simp only [ccLoop, ht, if_true, hx, htbl, List.map_cons,
              List.flatten_cons, hrest, ccMatched, Option.getD_some]
      · simp only [ccLoop, ht, if_false, List.map_cons, List.flatten_cons, hrest,
          ccMatched, List.nil_append]

/-- The first endorser envelope whose chaincode id has no registration set
makes the loop return: only the preceding envelopes are dispatched. -/
theorem ccLoop_stops (hub : EventHub) (env : Envelope) (ev : CCEvent)
    (htype : env.channel_header.type = "ENDORSER_TRANSACTION")
    (hex : env.ccExtract = some ev)
    (hmiss : tblGet hub.chaincodeRegistrants ev.chaincode_id = none) :
    ∀ (pre rest : List Envelope), (∀ e ∈ pre, ccCovered hub e = true) →
      ccLoop hub (pre ++ env :: rest) = (pre.map (ccMatched hub)).flatten
  | [], rest, _ => by
      simp only [List.nil_append, ccLoop, htype, if_true, hex, hmiss,
        List.map_nil, List.flatten_nil]
  | e :: pre, rest, h => by
      have hpre := ccLoop_stops hub env ev htype hex hmiss pre rest
        (fun x hx => h x (List.mem_cons_of_mem _ hx))
      have he := h e (List.mem_cons_self _ _)
      by_cases ht : e.channel_header.type = "ENDORSER_TRANSACTION"
      · cases hx : e.ccExtract with
        | none =>
            simp only [List.cons_append, ccLoop, ht, if_true, hx,
              List.append_eq, hpre, List.map_cons, List.flatten_cons,
              ccMatched, List.nil_append]
        | some ev2 =>
            unfold ccCovered at he
            rw [if_pos ht, hx] at he
            obtain ⟨tbl, htbl⟩ := Option.isSome_iff_exists.mp he
            simp only [List.cons_append, ccLoop, ht, if_true, hx, htbl,
              List.append_eq, hpre, List.map_cons, List.flatten_cons,
              ccMatched, Option.getD_some]
      · simp only [List.cons_append, ccLoop, ht, if_false, List.append_eq,
          hpre, List.map_cons, List.flatten_cons, ccMatched, List.nil_append]

/-! ### Hub-operation lemmas -/

theorem disconnect_fst (hub : EventHub) :
    (disconnect hub).1 =
      { hub with
        connected := false, blockOnEvents := [], blockOnErrors := [],
        transactionOnEvents := [], transactionOnErrors := [],
        chaincodeRegistrants := [] } := by
  cases hs : hub.stream <;> simp [disconnect, _closeAllCallbacks, hs]

theorem disconnect_acts_block (hub : EventHub) (kv : Nat × Nat)
    (h : kv ∈ hub.blockOnErrors) :
    Action.callErr kv.2 ehShutdownMsg ∈ (disconnect hub).2 := by
  have hA : Action.callErr kv.2 ehShutdownMsg
      ∈ hub.blockOnErrors.map (fun kv2 => Action.callErr kv2.2 ehShutdownMsg) :=
    List.mem_map_of_mem _ h
  cases hs : hub.stream with
  | none =>
      simp only [disconnect, _closeAllCallbacks, hs]
      exact List.mem_append_left _ (List.mem_append_left _ hA)
  | some st =>
      simp only [disconnect, _closeAllCallbacks, hs]
      exact List.mem_append_left _
        (List.mem_append_left _ (List.mem_append_left _ hA))

theorem disconnect_acts_tx (hub : EventHub) (kv : String × Nat)
    (h : kv ∈ hub.transactionOnErrors) :
    Action.callErr kv.2 ehShutdownMsg ∈ (disconnect hub).2 := by
  have hA : Action.callErr kv.2 ehShutdownMsg
      ∈ hub.transactionOnErrors.map
          (fun kv2 => Action.callErr kv2.2 ehShutdownMsg) :=
    List.mem_map_of_mem _ h
  cases hs : hub.stream with
  | none =>
      simp only [disconnect, _closeAllCallbacks, hs]
      exact List.mem_append_left _ (List.mem_append_right _ hA)
  | some st =>
      simp only [disconnect, _closeAllCallbacks, hs]
      exact List.mem_append_left _
        (List.mem_append_left _ (List.mem_append_right _ hA))

theorem disconnect_acts_cc (hub : EventHub) (kv : String × List ChainCodeCBE)
    (cbe : ChainCodeCBE) (e : Nat) (hkv : kv ∈ hub.chaincodeRegistrants)
    (hcbe : cbe ∈ kv.2) (he : cbe.onError = some e) :
    Action.callErr e ehShutdownMsg ∈ (disconnect hub).2 := by
  have hC : Action.callErr e ehShutdownMsg
      ∈ (hub.chaincodeRegistrants.map (fun kv2 =>
          kv2.2.filterMap (fun cbe2 =>
            cbe2.onError.map (fun e2 => Action.callErr e2 ehShutdownMsg)))).flatten := by
    refine List.mem_flatten.mpr ⟨_, List.mem_map_of_mem _ hkv, ?_⟩
    exact List.mem_filterMap.mpr ⟨cbe, hcbe, by rw [he]; rfl⟩
  cases hs : hub.stream with
  | none =>
      simp only [disconnect, _closeAllCallbacks, hs]
      exact List.mem_append_right _ hC
  | some st =>
      simp only [disconnect, _closeAllCallbacks, hs]
      exact List.mem_append_left _ (List.mem_append_right _ hC)

theorem disconnect_acts_stream (hub : EventHub) (st : GrpcStream)
    (h : hub.stream = some st) :
    Action.sendReg false ∈ (disconnect hub).2
      ∧ Action.streamEnd ∈ (disconnect hub).2 := by
  constructor <;>
  · simp only [disconnect, _closeAllCallbacks, h]
    exact List.mem_append_right _ (by simp)

/-- A disconnect leaves every registry empty, so running any terminal
handler afterwards can invoke no `onError` callback. -/
theorem disconnect_then_no_callErr (hub : EventHub) (cb : Nat) (msg : String) :
    Action.callErr cb msg ∉ (onStreamEnd (disconnect hub).1).2
      ∧ Action.callErr cb msg ∉ (onStreamError (disconnect hub).1).2
      ∧ Action.callErr cb msg ∉ (onSendTimeout (disconnect hub).1).2 := by
  rw [disconnect_fst]
  refine ⟨by simp [onStreamEnd], by simp [onStreamError], ?_⟩
  cases hs : hub.stream <;>
    simp [onSendTimeout, disconnect, _closeAllCallbacks, hs]

theorem chk_noep (hub : EventHub) (t f : Bool) (hep : hub.ep = false) :
    _checkConnection hub t f =
      (hub, [], some "TypeError: Cannot read property 'getUrl' of null") := by
  simp [_checkConnection, hep]

theorem chk_ff (hub : EventHub) (hep : hub.ep = true) :
    _checkConnection hub false false = (hub, [], none) := by
  simp [_checkConnection, hep]

theorem chk_force_nostream (hub : EventHub) (hep : hub.ep = true)
    (h : hub.stream = none) :
    _checkConnection hub false true =
      ((disconnect hub).1, (disconnect hub).2, some "Event hub is not connected ") := by
  simp [_checkConnection, hep, h]

theorem chk_force_ready (hub : EventHub) (st : GrpcStream)
    (hep : hub.ep = true) (hs : hub.stream = some st) (hst : st.state = 2) :
    _checkConnection hub false true =
      ({ hub with stream := some { st with paused := false } }, [], none) := by
  simp [_checkConnection, hep, hs, hst]

theorem chk_force_reconnect (hub : EventHub) (st : GrpcStream)
    (hs : hub.stream = some st) (hst : ¬(st.state = 2)) (hep : hub.ep = true) :
    _checkConnection hub false true =
      ({ hub with connected := true, stream := some newStream },
       [Action.grpcConnect, Action.sendReg true], none) := by
  simp [_checkConnection, hs, hst, _connect, hep]

theorem chk_noforce (hub : EventHub) (t : Bool) (hep : hub.ep = true) :
    _checkConnection hub t false =
      (hub, [],
       if t && !hub.connected then
         some "The event hub has not been connected to the event source"
       else none) := by
  unfold _checkConnection
  rw [if_neg (by simp [hep])]
  split <;> simp_all

theorem connect_count (hub : EventHub) (force : Bool) :
    (_connect hub force).1.block_registrant_count
      = hub.block_registrant_count := by
  unfold _connect
  split_ifs <;> rfl

theorem disconnect_count (hub : EventHub) :
    (disconnect hub).1.block_registrant_count = hub.block_registrant_count := by
  rw [disconnect_fst]

theorem chk_count (hub : EventHub) (t f : Bool) :
    (_checkConnection hub t f).1.block_registrant_count
      = hub.block_registrant_count := by
  unfold _checkConnection
  split
  · rfl
  split
  · rfl
  split
  · split
    · simpa using disconnect_count hub
    · next stv hseq =>
        dsimp only
        split
        · split
          · next hh aa heq =>
              have hc := connect_count
                { hub with stream := some { stv with paused := false } } true
              rw [heq] at hc
              exact hc
          · next hh aa vv heq =>
              simpa using disconnect_count
                { hub with stream := some { stv with paused := false } }
        · rfl
  · rfl

/-- A call to `registerBlockEvent` that returns a registration number
returns the hub's current counter and leaves the counter one higher. -/
theorem registerBlockEvent_ok (hub : EventHub) (cb : Nat) (oe : Option Nat)
    (n : Nat) (h : (registerBlockEvent hub cb oe).res = .ok n) :
    n = hub.block_registrant_count ∧
      (registerBlockEvent hub cb oe).hub.block_registrant_count = n + 1 := by
  cases hep : hub.ep with
  | false =>
      have hx := chk_noep hub (!oe.isSome) false hep
      simp only [registerBlockEvent, hx] at h
      simp at h
  | true =>
  cases oe with
  | none =>
      simp only [registerBlockEvent, chk_noforce, hep, Option.isSome_none,
        Bool.not_false, Bool.true_and] at h ⊢
      by_cases hc : hub.connected = true
      · simp only [hc] at h ⊢
        simp at h ⊢
        omega
      · have hc2 : hub.connected = false := by
          revert hc; cases hub.connected <;> simp
        simp [hc2] at h
  | some oeval =>
      simp only [registerBlockEvent, chk_noforce, hep, Option.isSome_some,
        Bool.not_true, Bool.false_and] at h ⊢
      simp only [show ((false = true) : Prop) = False from by simp,
        if_false] at h ⊢
      split at h
      · next h4 a2 err heq2 => exact absurd h (by simp)
      · next h4 a2 heq2 =>
          simp only [Except.ok.injEq] at h
          subst h
          refine ⟨rfl, ?_⟩
          have hcnt := chk_count
            { hub with
              block_registrant_count := hub.block_registrant_count + 1,
              blockOnEvents :=
                tblPut hub.blockOnEvents hub.block_registrant_count cb,
              blockOnErrors :=
                tblPut hub.blockOnErrors hub.block_registrant_count oeval }
            false hub.force_reconnect
          rw [heq2] at hcnt
          simpa using hcnt

/-! ### Registering on a disconnected hub -/

theorem regBlock_disc_noerr (hub : EventHub) (hconn : hub.connected = false)
    (hep : hub.ep = true) (cb : Nat) :
    registerBlockEvent hub cb none =
      ⟨hub, [],
       .error "The event hub has not been connected to the event source"⟩ := by
  simp [registerBlockEvent, chk_noforce, hconn, hep]

theorem regBlock_disc_err_stream (hub : EventHub) (st : GrpcStream)
    (_hconn : hub.connected = false) (hforce : hub.force_reconnect = true)
    (hs : hub.stream = some st) (hep : hub.ep = true) (cb oe : Nat) :
    (registerBlockEvent hub cb (some oe)).res = .ok hub.block_registrant_count
    ∧ tblGet (registerBlockEvent hub cb (some oe)).hub.blockOnEvents
        hub.block_registrant_count = some cb
    ∧ (Action.grpcConnect ∈ (registerBlockEvent hub cb (some oe)).acts
        ↔ ¬(st.state = 2)) := by
  by_cases hst : st.state = 2
  · simp [registerBlockEvent, chk_ff, chk_force_ready, hforce, hs, hst,
      hep, tblGet_put_self]
  · simp [registerBlockEvent, chk_ff, chk_force_reconnect, hforce, hs, hst,
      hep, tblGet_put_self]

theorem regBlock_disc_err_nostream (hub : EventHub)
    (_hconn : hub.connected = false) (hforce : hub.force_reconnect = true)
    (hep : hub.ep = true) (hs : hub.stream = none) (cb oe : Nat) :
    (registerBlockEvent hub cb (some oe)).res = .error "Event hub is not connected "
    ∧ (registerBlockEvent hub cb (some oe)).hub.blockOnEvents = []
    ∧ Action.callErr oe ehShutdownMsg
        ∈ (registerBlockEvent hub cb (some oe)).acts := by
  have hput : (hub.block_registrant_count, oe)
      ∈ tblPut hub.blockOnErrors hub.block_registrant_count oe :=
    tblPut_mem_self _ _ _
  simp only [registerBlockEvent, Option.isSome_some, Bool.not_true, chk_ff,
    hep, hforce, chk_force_nostream, hs, disconnect_fst]
  refine ⟨trivial, trivial, ?_⟩
  rw [List.nil_append]
  exact disconnect_acts_block _ (hub.block_registrant_count, oe) hput

theorem regTx_disc_noerr (hub : EventHub) (hconn : hub.connected = false)
    (hep : hub.ep = true) (tx : String) (htx : ¬(tx = "")) (cb : Nat) :
    registerTxEvent hub tx cb none =
      ⟨hub, [],
       .error "The event hub has not been connected to the event source"⟩ := by
  simp [registerTxEvent, chk_noforce, hconn, hep, htx]

theorem regTx_disc_err_stream (hub : EventHub) (st : GrpcStream)
    (_hconn : hub.connected = false) (hforce : hub.force_reconnect = true)
    (hs : hub.stream = some st) (hep : hub.ep = true) (tx : String)
    (htx : ¬(tx = "")) (cb oe : Nat) :
    (registerTxEvent hub tx cb (some oe)).res = .ok ()
    ∧ tblGet (registerTxEvent hub tx cb (some oe)).hub.transactionOnEvents tx
        = some cb
    ∧ (Action.grpcConnect ∈ (registerTxEvent hub tx cb (some oe)).acts
        ↔ ¬(st.state = 2)) := by
  by_cases hst : st.state = 2
  · simp [registerTxEvent, chk_ff, chk_force_ready, hforce, hs, hst, hep,
      htx, tblGet_put_self]
  · simp [registerTxEvent, chk_ff, chk_force_reconnect, hforce, hs, hst, hep,
      htx, tblGet_put_self]

theorem regTx_disc_err_nostream (hub : EventHub)
    (_hconn : hub.connected = false) (hforce : hub.force_reconnect = true)
    (hep : hub.ep = true) (hs : hub.stream = none) (tx : String)
    (htx : ¬(tx = "")) (cb oe : Nat) :
    (registerTxEvent hub tx cb (some oe)).res
        = .error "Event hub is not connected "
    ∧ (registerTxEvent hub tx cb (some oe)).hub.transactionOnEvents = []
    ∧ Action.callErr oe ehShutdownMsg
        ∈ (registerTxEvent hub tx cb (some oe)).acts := by
  have hput : (tx, oe) ∈ tblPut hub.transactionOnErrors tx oe :=
    tblPut_mem_self _ _ _
  simp only [registerTxEvent, if_neg htx, Option.isSome_some, Bool.not_true,
    chk_ff, hep, hforce, chk_force_nostream, hs, disconnect_fst]
  refine ⟨trivial, trivial, ?_⟩
  rw [List.nil_append]
  exact disconnect_acts_tx _ (tx, oe) hput

theorem regCC_disc_noerr (hub : EventHub) (hconn : hub.connected = false)
    (hep : hub.ep = true) (ccid en : String) (hcc : ¬(ccid = ""))
    (hen : ¬(en = "")) (cb : Nat) :
    registerChaincodeEvent hub ccid en cb none =
      ⟨hub, [],
       .error "The event hub has not been connected to the event source"⟩ := by
  simp [registerChaincodeEvent, chk_noforce, hconn, hep, hcc, hen]

theorem regCC_disc_err_stream (hub : EventHub) (st : GrpcStream)
    (_hconn : hub.connected = false) (hforce : hub.force_reconnect = true)
    (hs : hub.stream = some st) (hep : hub.ep = true) (ccid en : String)
    (hcc : ¬(ccid = "")) (hen : ¬(en = "")) (cb oe : Nat) :
    (registerChaincodeEvent hub ccid en cb (some oe)).res
        = .ok (mkChainCodeCBE ccid en cb (some oe))
    ∧ (∃ tbl,
        tblGet (registerChaincodeEvent hub ccid en cb (some oe)).hub.chaincodeRegistrants
          ccid = some tbl
        ∧ mkChainCodeCBE ccid en cb (some oe) ∈ tbl)
    ∧ (Action.grpcConnect ∈ (registerChaincodeEvent hub ccid en cb (some oe)).acts
        ↔ ¬(st.state = 2)) := by
  have hmem : mkChainCodeCBE ccid en cb (some oe)
      ∈ (tblGet hub.chaincodeRegistrants ccid).getD []
          ++ [mkChainCodeCBE ccid en cb (some oe)] :=
    List.mem_append_right _ (List.mem_singleton_self _)
  by_cases hst : st.state = 2
  · refine ⟨?_, ⟨_, ?_, hmem⟩, ?_⟩ <;>
      simp [registerChaincodeEvent, chk_ff, chk_force_ready, hforce, hs, hst,
        hep, hcc, hen, tblGet_put_self]
  · refine ⟨?_, ⟨_, ?_, hmem⟩, ?_⟩ <;>
      simp [registerChaincodeEvent, chk_ff, chk_force_reconnect, hforce, hs,
        hst, hep, hcc, hen, tblGet_put_self]

theorem regCC_disc_err_nostream (hub : EventHub)
    (_hconn : hub.connected = false) (hforce : hub.force_reconnect = true)
    (hep : hub.ep = true) (hs : hub.stream = none) (ccid en : String)
    (hcc : ¬(ccid = "")) (hen : ¬(en = "")) (cb oe : Nat) :
    (registerChaincodeEvent hub ccid en cb (some oe)).res
        = .error "Event hub is not connected "
    ∧ (registerChaincodeEvent hub ccid en cb (some oe)).hub.chaincodeRegistrants = []
    ∧ Action.callErr oe ehShutdownMsg
        ∈ (registerChaincodeEvent hub ccid en cb (some oe)).acts := by
  have hput : (ccid, (tblGet hub.chaincodeRegistrants ccid).getD []
        ++ [mkChainCodeCBE ccid en cb (some oe)])
      ∈ tblPut hub.chaincodeRegistrants ccid
          ((tblGet hub.chaincodeRegistrants ccid).getD []
            ++ [mkChainCodeCBE ccid en cb (some oe)]) :=
    tblPut_mem_self _ _ _
  have hmem : mkChainCodeCBE ccid en cb (some oe)
      ∈ (tblGet hub.chaincodeRegistrants ccid).getD []
          ++ [mkChainCodeCBE ccid en cb (some oe)] :=
    List.mem_append_right _ (List.mem_singleton_self _)
  simp only [registerChaincodeEvent, if_neg hcc, if_neg hen,
    Option.isSome_some, Bool.not_true, chk_ff, hep, hforce,
    chk_force_nostream, hs, disconnect_fst, if_true]
  refine ⟨trivial, trivial, ?_⟩
  rw [List.nil_append]
  exact disconnect_acts_cc _ _ (mkChainCodeCBE ccid en cb (some oe)) oe hput
    hmem rfl

/-! With no peer address configured, the connection check's debug logging
dereferences the null `this.ep` first, so every registration call throws
the TypeError before storing anything or invoking any callback. -/

theorem regBlock_noep (hub : EventHub) (hep : hub.ep = false) (cb : Nat)
    (oe : Option Nat) :
    registerBlockEvent hub cb oe =
      ⟨hub, [],
       .error "TypeError: Cannot read property 'getUrl' of null"⟩ := by
  cases oe <;> simp [registerBlockEvent, chk_noep, hep]

theorem regTx_noep (hub : EventHub) (hep : hub.ep = false) (tx : String)
    (htx : ¬(tx = "")) (cb : Nat) (oe : Option Nat) :
    registerTxEvent hub tx cb oe =
      ⟨hub, [],
       .error "TypeError: Cannot read property 'getUrl' of null"⟩ := by
  cases oe <;> simp [registerTxEvent, chk_noep, hep, htx]

theorem regCC_noep (hub : EventHub) (hep : hub.ep = false) (ccid en : String)
    (hcc : ¬(ccid = "")) (hen : ¬(en = "")) (cb : Nat) (oe : Option Nat) :
    registerChaincodeEvent hub ccid en cb oe =
      ⟨hub, [],
       .error "TypeError: Cannot read property 'getUrl' of null"⟩ := by
  cases oe <;> simp [registerChaincodeEvent, chk_noep, hep, hcc, hen]

theorem flatten_eq_nil_of_all {α : Type} (L : List (List α))
    (h : ∀ l ∈ L, l = []) : L.flatten = [] := by
  induction L with
  | nil => rfl
  | cons l L ih =>
      rw [List.flatten_cons, h l (List.mem_cons_self _ _), List.nil_append]
      exact ih (fun x hx => h x (List.mem_cons_of_mem _ hx))

/-! ### The claims -/

/-- C1 (amended): the chaincode dispatch pass walks the block's envelopes
in order and, for each `ENDORSER_TRANSACTION` envelope with an extractable
chaincode event, invokes `onEvent` for every registration of that
chaincode id whose compiled name-pattern matches the event name — but only
as long as every such envelope's chaincode id has a registration set: the
first envelope whose chaincode id has no registration set makes the pass
return early, so the remaining envelopes of the block are not processed
(an extraction failure, by contrast, only skips its own envelope). -/
theorem c1_chaincode_dispatch :
    (∀ (hub : EventHub) (block : Block),
        (∀ env ∈ block.data, ccCovered hub env = true) →
        _processChainCodeOnEvents hub block
          = (block.data.map (ccMatched hub)).flatten)
    ∧ (∀ (hub : EventHub) (block : Block) (pre : List Envelope)
        (env : Envelope) (ev : CCEvent) (rest : List Envelope),
        block.data = pre ++ env :: rest →
        (∀ e ∈ pre, ccCovered hub e = true) →
        env.channel_header.type = "ENDORSER_TRANSACTION" →
        env.ccExtract = some ev →
        tblGet hub.chaincodeRegistrants ev.chaincode_id = none →
        _processChainCodeOnEvents hub block
          = (pre.map (ccMatched hub)).flatten) := by
  constructor
  · intro hub block hcov
    unfold _processChainCodeOnEvents
    by_cases he : hub.chaincodeRegistrants.isEmpty
    · rw [if_pos he]
      have hnil : hub.chaincodeRegistrants = [] := List.isEmpty_iff.mp he
      symm
      refine flatten_eq_nil_of_all _ (fun l hl => ?_)
      obtain ⟨env, _, rfl⟩ := List.mem_map.mp hl
      exact ccMatched_empty hub env hnil
    · rw [if_neg he]
      exact ccLoop_covered hub block.data hcov
  · intro hub block pre env ev rest hdata hcov htype hex hmiss
    unfold _processChainCodeOnEvents
    by_cases he : hub.chaincodeRegistrants.isEmpty
    · rw [if_pos he]
      have hnil : hub.chaincodeRegistrants = [] := List.isEmpty_iff.mp he
      symm
      refine flatten_eq_nil_of_all _ (fun l hl => ?_)
      obtain ⟨e, _, rfl⟩ := List.mem_map.mp hl
      exact ccMatched_empty hub e hnil
    · rw [if_neg he, hdata]
      exact ccLoop_stops hub env ev htype hex hmiss pre rest hcov

/-- C1 counterexample: with a single registration (for chaincode `ccY`),
a block whose first envelope carries an event for the unregistered
chaincode `ccX` produces no invocation at all, even though its second
envelope's `ccY` event matches the registration — dispatching the second
envelope alone does invoke it, so the missing registration set did prevent
the pass from processing the remaining envelopes. -/
theorem c1_missing_registration_stops_pass_cex :
    _processChainCodeOnEvents hubC1 ⟨0, [envX, envY], []⟩ = []
    ∧ _processChainCodeOnEvents hubC1 ⟨0, [envY], []⟩
        = [⟨5, ⟨"ccY", "e"⟩⟩] := by decide

theorem c1_chaincode_dispatch_witness :
    _processChainCodeOnEvents hubC1 ⟨0, [envY], []⟩
        = (([envY] : List Envelope).map (ccMatched hubC1)).flatten
    ∧ _processChainCodeOnEvents hubC1 ⟨0, [envX, envY], []⟩
        = (([] : List Envelope).map (ccMatched hubC1)).flatten :=
  ⟨c1_chaincode_dispatch.1 hubC1 ⟨0, [envY], []⟩ (by decide),
   c1_chaincode_dispatch.2 hubC1 ⟨0, [envX, envY], []⟩ [] envX ⟨"ccX", "e"⟩
     [envY] rfl (by decide) (by decide) (by decide) (by decide)⟩

/-- C2: the transaction dispatch pass reads, for every envelope index
`i`, that envelope's `tx_id` and the `i`-th entry of the validation-code
array, and produces — in envelope order, exactly once per matching
envelope — an invocation `(txId, validationCode)` precisely when a
transaction registration exists for that `tx_id`; no callback fires for an
unregistered `tx_id`. -/
theorem c2_tx_dispatch (hub : EventHub) (block : Block) :
    _processTxOnEvents hub block
      = (List.range block.data.length).filterMap (txInvAt hub block)
    ∧ (∀ tx, tblGet hub.transactionOnEvents tx = none →
        ∀ inv ∈ _processTxOnEvents hub block, ¬(inv.tx_id = tx)) := by
  have hmain : _processTxOnEvents hub block
      = (List.range block.data.length).filterMap (txInvAt hub block) := by
    unfold _processTxOnEvents
    by_cases he : hub.transactionOnEvents.isEmpty
    · rw [if_pos he]
      have hnil : hub.transactionOnEvents = [] := List.isEmpty_iff.mp he
      symm
      rw [List.filterMap_eq_nil_iff]
      intro j _
      unfold txInvAt
      cases block.data.get? j <;> simp [hnil, tblGet]
    · rw [if_neg he, txLoop_eq]
      refine filterMap_ext _ _ _ (fun j => ?_)
      unfold txInvAt
      simp only [Nat.zero_add]
  refine ⟨hmain, fun tx htx inv hmem => ?_⟩
  rw [hmain] at hmem
  obtain ⟨j, _, hsome⟩ := List.mem_filterMap.mp hmem
  unfold txInvAt at hsome
  cases hg : block.data.get? j with
  | none => rw [hg] at hsome; simp at hsome
  | some env =>
      rw [hg] at hsome
      simp only [Option.some_bind] at hsome
      cases hcb : tblGet hub.transactionOnEvents env.channel_header.tx_id with
      | none => rw [hcb] at hsome; simp at hsome
      | some cb =>
          rw [hcb] at hsome
          simp only [Option.map_some', Option.some.injEq] at hsome
          intro heq
          rw [← hsome] at heq
          simp only [] at heq
          rw [heq] at hcb
          rw [htx] at hcb
          exact Option.noConfusion hcb

theorem c2_tx_dispatch_witness :
    ¬((⟨21, "tx2", some "VALID"⟩ : TxInvocation).tx_id = "tx9") :=
  (c2_tx_dispatch hubTx blk3).2 "tx9" (by decide)
    ⟨21, "tx2", some "VALID"⟩ (by decide)

/-- C3 (amended): if the hub has no peer address configured, every
registration call — with or without an `onError` — throws a TypeError
from the connection check's debug logging (`this.ep.getUrl()` on a null
`this.ep`) before anything is stored or any callback runs.  Otherwise,
registering while disconnected fails synchronously when no `onError` is
supplied, leaving the hub untouched.  With an `onError` and an existing
transport stream (a previously connected hub), the registration is
accepted and stored, no error is returned, and a reconnect is attempted
exactly when the stream's connectivity state is not READY.  With an
`onError` but no stream (a hub that never connected but has its peer
address set), the reconnect attempt fails inside the registration call:
the hub is shut down — the just-stored listener's `onError` receives the
shutdown error and the registries are cleared — and the error
`Event hub is not connected` is raised synchronously. -/
theorem c3_register_disconnected (hub : EventHub)
    (hconn : hub.connected = false) (hforce : hub.force_reconnect = true) :
    (hub.ep = false →
      (∀ cb oe, registerBlockEvent hub cb oe =
        ⟨hub, [],
         .error "TypeError: Cannot read property 'getUrl' of null"⟩)
      ∧ (∀ tx cb oe, ¬(tx = "") → registerTxEvent hub tx cb oe =
        ⟨hub, [],
         .error "TypeError: Cannot read property 'getUrl' of null"⟩)
      ∧ (∀ ccid en cb oe, ¬(ccid = "") → ¬(en = "") →
        registerChaincodeEvent hub ccid en cb oe =
        ⟨hub, [],
         .error "TypeError: Cannot read property 'getUrl' of null"⟩))
    ∧ (hub.ep = true →
      (∀ cb, registerBlockEvent hub cb none =
        ⟨hub, [],
         .error "The event hub has not been connected to the event source"⟩)
      ∧ (∀ tx cb, ¬(tx = "") → registerTxEvent hub tx cb none =
        ⟨hub, [],
         .error "The event hub has not been connected to the event source"⟩)
      ∧ (∀ ccid en cb, ¬(ccid = "") → ¬(en = "") →
        registerChaincodeEvent hub ccid en cb none =
        ⟨hub, [],
         .error "The event hub has not been connected to the event source"⟩))
    ∧ (∀ st, hub.stream = some st → hub.ep = true →
        (∀ cb oe,
          (registerBlockEvent hub cb (some oe)).res
              = .ok hub.block_registrant_count
          ∧ tblGet (registerBlockEvent hub cb (some oe)).hub.blockOnEvents
              hub.block_registrant_count = some cb
          ∧ (Action.grpcConnect ∈ (registerBlockEvent hub cb (some oe)).acts
              ↔ ¬(st.state = 2)))
        ∧ (∀ tx cb oe, ¬(tx = "") →
          (registerTxEvent hub tx cb (some oe)).res = .ok ()
          ∧ tblGet (registerTxEvent hub tx cb (some oe)).hub.transactionOnEvents
              tx = some cb
          ∧ (Action.grpcConnect ∈ (registerTxEvent hub tx cb (some oe)).acts
              ↔ ¬(st.state = 2)))
        ∧ (∀ ccid en cb oe, ¬(ccid = "") → ¬(en = "") →
          (registerChaincodeEvent hub ccid en cb (some oe)).res
              = .ok (mkChainCodeCBE ccid en cb (some oe))
          ∧ (∃ tbl,
              tblGet (registerChaincodeEvent hub ccid en cb
                  (some oe)).hub.chaincodeRegistrants ccid = some tbl
              ∧ mkChainCodeCBE ccid en cb (some oe) ∈ tbl)
          ∧ (Action.grpcConnect
              ∈ (registerChaincodeEvent hub ccid en cb (some oe)).acts
              ↔ ¬(st.state = 2))))
    ∧ (hub.ep = true → hub.stream = none →
        (∀ cb oe,
          (registerBlockEvent hub cb (some oe)).res
              = .error "Event hub is not connected "
          ∧ (registerBlockEvent hub cb (some oe)).hub.blockOnEvents = []
          ∧ Action.callErr oe ehShutdownMsg
              ∈ (registerBlockEvent hub cb (some oe)).acts)
        ∧ (∀ tx cb oe, ¬(tx = "") →
          (registerTxEvent hub tx cb (some oe)).res
              = .error "Event hub is not connected "
          ∧ (registerTxEvent hub tx cb (some oe)).hub.transactionOnEvents = []
          ∧ Action.callErr oe ehShutdownMsg
              ∈ (registerTxEvent hub tx cb (some oe)).acts)
        ∧ (∀ ccid en cb oe, ¬(ccid = "") → ¬(en = "") →
          (registerChaincodeEvent hub ccid en cb (some oe)).res
              = .error "Event hub is not connected "
          ∧ (registerChaincodeEvent hub ccid en cb
              (some oe)).hub.chaincodeRegistrants = []
          ∧ Action.callErr oe ehShutdownMsg
              ∈ (registerChaincodeEvent hub ccid en cb (some oe)).acts)) :=
  ⟨fun hep =>
     ⟨fun cb oe => regBlock_noep hub hep cb oe,
      fun tx cb oe htx => regTx_noep hub hep tx htx cb oe,
      fun ccid en cb oe hcc hen => regCC_noep hub hep ccid en hcc hen cb oe⟩,
   fun hep =>
     ⟨fun cb => regBlock_disc_noerr hub hconn hep cb,
      fun tx cb htx => regTx_disc_noerr hub hconn hep tx htx cb,
      fun ccid en cb hcc hen =>
        regCC_disc_noerr hub hconn hep ccid en hcc hen cb⟩,
   fun st hs hep =>
     ⟨fun cb oe => regBlock_disc_err_stream hub st hconn hforce hs hep cb oe,
      fun tx cb oe htx =>
        regTx_disc_err_stream hub st hconn hforce hs hep tx htx cb oe,
      fun ccid en cb oe hcc hen =>
        regCC_disc_err_stream hub st hconn hforce hs hep ccid en hcc hen cb oe⟩,
   fun hep hs =>
     ⟨fun cb oe => regBlock_disc_err_nostream hub hconn hforce hep hs cb oe,
      fun tx cb oe htx =>
        regTx_disc_err_nostream hub hconn hforce hep hs tx htx cb oe,
      fun ccid en cb oe hcc hen =>
        regCC_disc_err_nostream hub hconn hforce hep hs ccid en hcc hen
          cb oe⟩⟩

/-- C3 counterexample: on a disconnected hub that never connected (no
stream), registering a block listener *with* an `onError` callback still
fails synchronously, and the listener is not retained in the registry —
its `onError` is immediately given the shutdown error instead. -/
theorem c3_register_disconnected_cex :
    (registerBlockEvent hubFresh 8 (some 9)).res
        = .error "Event hub is not connected "
    ∧ (registerBlockEvent hubFresh 8 (some 9)).hub.blockOnEvents = []
    ∧ Action.callErr 9 ehShutdownMsg
        ∈ (registerBlockEvent hubFresh 8 (some 9)).acts :=
  ⟨rfl, rfl, by decide⟩

theorem c3_register_disconnected_witness :
    (registerBlockEvent EventHub.new 8 (some 9)).res
        = .error "TypeError: Cannot read property 'getUrl' of null"
    ∧ (registerBlockEvent hubD8 8 none).res
        = .error "The event hub has not been connected to the event source"
    ∧ (registerBlockEvent hubD8 8 (some 9)).res = .ok 1
    ∧ (registerBlockEvent hubFresh 8 (some 9)).res
        = .error "Event hub is not connected " := by
  refine ⟨?_, ?_, ?_, ?_⟩
  · rw [((c3_register_disconnected EventHub.new (by decide)
      (by decide)).1 (by decide)).1 8 (some 9)]
  · rw [((c3_register_disconnected hubD8 (by decide)
      (by decide)).2.1 (by decide)).1 8]
  · exact (((c3_register_disconnected hubD8 (by decide)
      (by decide)).2.2.1 ⟨false, 2⟩ (by decide) (by decide)).1 8 9).1
  · exact (((c3_register_disconnected hubFresh (by decide)
      (by decide)).2.2.2 (by decide) (by decide)).1 8 9).1

/-- C4: `disconnect()` marks the hub disconnected, invokes every
registered `onError` across the block, transaction and chaincode
registries with the shutdown error, clears all three registries (so no
subsequent dispatch pass produces any invocation), and, when a transport
stream exists, sends an unregister message and ends the stream. -/
theorem c4_disconnect_closes_all (hub : EventHub) :
    (disconnect hub).1.connected = false
    ∧ (disconnect hub).1.blockOnEvents = []
    ∧ (disconnect hub).1.blockOnErrors = []
    ∧ (disconnect hub).1.transactionOnEvents = []
    ∧ (disconnect hub).1.transactionOnErrors = []
    ∧ (disconnect hub).1.chaincodeRegistrants = []
    ∧ (∀ kv ∈ hub.blockOnErrors,
        Action.callErr kv.2 ehShutdownMsg ∈ (disconnect hub).2)
    ∧ (∀ kv ∈ hub.transactionOnErrors,
        Action.callErr kv.2 ehShutdownMsg ∈ (disconnect hub).2)
    ∧ (∀ kv ∈ hub.chaincodeRegistrants, ∀ cbe ∈ kv.2, ∀ e,
        cbe.onError = some e →
        Action.callErr e ehShutdownMsg ∈ (disconnect hub).2)
    ∧ (∀ st, hub.stream = some st →
        Action.sendReg false ∈ (disconnect hub).2
        ∧ Action.streamEnd ∈ (disconnect hub).2)
    ∧ (∀ block, _processBlockOnEvents (disconnect hub).1 block = []
        ∧ _processTxOnEvents (disconnect hub).1 block = []
        ∧ _processChainCodeOnEvents (disconnect hub).1 block = []) := by
  refine ⟨by rw [disconnect_fst], by rw [disconnect_fst],
    by rw [disconnect_fst], by rw [disconnect_fst], by rw [disconnect_fst],
    by rw [disconnect_fst],
    fun kv hkv => disconnect_acts_block hub kv hkv,
    fun kv hkv => disconnect_acts_tx hub kv hkv,
    fun kv hkv cbe hcbe e he => disconnect_acts_cc hub kv cbe e hkv hcbe he,
    fun st hs => disconnect_acts_stream hub st hs,
    fun block => ?_⟩
  rw [disconnect_fst]
  exact ⟨rfl, rfl, rfl⟩

theorem c4_disconnect_closes_all_witness :
    Action.callErr 9 ehShutdownMsg ∈ (disconnect hubW4).2
    ∧ Action.callErr 11 ehShutdownMsg ∈ (disconnect hubW4).2
    ∧ Action.callErr 13 ehShutdownMsg ∈ (disconnect hubW4).2
    ∧ Action.sendReg false ∈ (disconnect hubW4).2 :=
  ⟨(c4_disconnect_closes_all hubW4).2.2.2.2.2.2.1 (1, 9) (by decide),
   (c4_disconnect_closes_all hubW4).2.2.2.2.2.2.2.1 ("t", 11) (by decide),
   (c4_disconnect_closes_all hubW4).2.2.2.2.2.2.2.2.1
     ("cc", [mkChainCodeCBE "cc" "e" 12 (some 13)]) (by decide)
     (mkChainCodeCBE "cc" "e" 12 (some 13)) (by decide) 13 rfl,
   ((c4_disconnect_closes_all hubW4).2.2.2.2.2.2.2.2.2.1
     ⟨false, 2⟩ (by decide)).1⟩

/-- C5: decoding a `ConfigPolicy` of type `MSP` does not throw: it returns
a structurally valid placeholder together with exactly one warning
diagnostic, and that warning names both the policy and the unsupported
`MSP` type. -/
theorem c5_msp_policy_warns (name mod_policy : String) (version : Nat) :
    ∃ p w, decodeConfigPolicy name version mod_policy PolicyType_MSP
        = .ok (p, [w])
      ∧ isSubL name.data w.data = true
      ∧ isSubL "MSP".data w.data = true := by
  refine ⟨⟨version, mod_policy, .mspPlaceholder⟩,
    "decodeConfigPolicy - found a PolicyType of MSP for policy " ++ name,
    rfl, ?_, ?_⟩
  · rw [String.data_append]
    exact isSubL_append_right _ _
  · rw [String.data_append]
    exact isSubL_append_left _ _ _ (by decide)

/-- C6: decoding a `ConfigPolicy` whose type is outside
`{SIGNATURE, MSP, IMPLICIT_META}` fails with the `Unknown Policy type`
error and returns no partial result. -/
theorem c6_unknown_policy_type_throws (name mod_policy : String)
    (version typ : Nat) (h1 : ¬(typ = PolicyType_SIGNATURE))
    (h2 : ¬(typ = PolicyType_MSP)) (h3 : ¬(typ = PolicyType_IMPLICIT_META)) :
    decodeConfigPolicy name version mod_policy typ
      = .error ("Unknown Policy type of " ++ toString typ) := by
  simp [decodeConfigPolicy, h1, h2, h3]

theorem c6_unknown_policy_type_throws_witness :
    decodeConfigPolicy "Writers" 0 "" 0 = .error "Unknown Policy type of 0" :=
  (c6_unknown_policy_type_throws "Writers" "" 0 0 (by decide) (by decide)
    (by decide)).trans (by decide)

/-- C7: with two chaincode registrations on the same hub for chaincode
`ccq`, one with pattern `"evtA"` (callback 11) and one with pattern `".*"`
(callback 12), an event named `"evtA"` invokes both callbacks and an event
named `"evtB"` invokes only the `".*"` registration's callback. -/
theorem c7_two_patterns :
    _processChainCodeOnEvents hubC7 (blkEvt "evtA")
      = [⟨11, ⟨"ccq", "evtA"⟩⟩, ⟨12, ⟨"ccq", "evtA"⟩⟩]
    ∧ _processChainCodeOnEvents hubC7 (blkEvt "evtB")
      = [⟨12, ⟨"ccq", "evtB"⟩⟩] := by decide

/-- C8 (amended): stream `end` and stream `error` apply `disconnect()`
semantics only when the hub is still marked connected, but the
registration-send timeout calls `disconnect()` unconditionally.  Because a
disconnect clears every registry, once one terminal handler has run a
disconnect, no later terminal signal invokes any listener's `onError`
again — the registry-closing shutdown reaches each listener at most once. -/
theorem c8_terminal_signals (hub : EventHub) :
    (hub.connected = false →
        onStreamEnd hub = (hub, []) ∧ onStreamError hub = (hub, []))
    ∧ (hub.connected = true →
        onStreamEnd hub = disconnect hub
        ∧ onStreamError hub = disconnect hub)
    ∧ onSendTimeout hub = disconnect hub
    ∧ (∀ cb msg,
        Action.callErr cb msg ∉ (onStreamEnd (disconnect hub).1).2
        ∧ Action.callErr cb msg ∉ (onStreamError (disconnect hub).1).2
        ∧ Action.callErr cb msg ∉ (onSendTimeout (disconnect hub).1).2) :=
  ⟨fun h => ⟨by simp [onStreamEnd, h], by simp [onStreamError, h]⟩,
   fun h => ⟨by simp [onStreamEnd, h], by simp [onStreamError, h]⟩,
   rfl,
   fun cb msg => disconnect_then_no_callErr hub cb msg⟩

/-- C8 counterexample: the registration-send timeout handler applies
`disconnect()` semantics even though the hub is not marked connected — on
a disconnected hub that still holds a block listener, the timeout delivers
the shutdown error to that listener's `onError`. -/
theorem c8_timeout_unconditional_cex :
    hubD8.connected = false
    ∧ Action.callErr 9 ehShutdownMsg ∈ (onSendTimeout hubD8).2 := by decide

theorem c8_terminal_signals_witness :
    onStreamEnd hubD8 = (hubD8, [])
    ∧ onStreamEnd hubW4 = disconnect hubW4 :=
  ⟨((c8_terminal_signals hubD8).1 (by decide)).1,
   ((c8_terminal_signals hubW4).2.1 (by decide)).1⟩

/-- C9: block registration numbers start at the hub's counter (which the
constructor initializes to 1, so they are at least 1) and strictly
increase: of two successive successful `registerBlockEvent` calls, the
second returns a strictly larger number than the first. -/
theorem c9_block_registration_numbers (hub : EventHub) (cb1 cb2 : Nat)
    (oe1 oe2 : Option Nat) (n1 n2 : Nat)
    (hpos : 1 ≤ hub.block_registrant_count)
    (h1 : (registerBlockEvent hub cb1 oe1).res = .ok n1)
    (h2 : (registerBlockEvent (registerBlockEvent hub cb1 oe1).hub
        cb2 oe2).res = .ok n2) :
    1 ≤ n1 ∧ n1 < n2 := by
  obtain ⟨e1, f1⟩ := registerBlockEvent_ok hub cb1 oe1 n1 h1
  obtain ⟨e2, f2⟩ := registerBlockEvent_ok _ cb2 oe2 n2 h2
  omega

theorem c9_block_registration_numbers_witness : 1 ≤ 1 ∧ 1 < 2 :=
  c9_block_registration_numbers hubConn 8 8 none none 1 2 (by decide)
    (by decide) (by decide)

/-- C10: the chaincode event-name pattern is compiled as an unanchored
regular expression and matched with a substring search, so a registration
whose pattern is metacharacter-free fires exactly for the event names that
contain the pattern as a contiguous substring — for pattern `"evtA"` that
includes names such as `"xevtAB"`, not just `"evtA"` itself. -/
theorem c10_unanchored_substring (p en : String) (hp : noMeta p.data = true) :
    _processChainCodeOnEvents (hubPat p) (blkName en)
      = (if isSubL p.data en.data = true then
          [⟨7, ⟨"cc", en⟩⟩] else []) := by
  have hsearch := reSearch_parse_noMeta p.data hp en.data
  unfold _processChainCodeOnEvents hubPat blkName
  rw [if_neg (by simp)]
  unfold ccLoop mkChainCodeCBE
  simp only [tblGet, if_pos rfl, reduceIte, List.filterMap_cons,
    List.filterMap_nil, hsearch]
  by_cases hsub : isSubL p.data en.data = true <;> simp [ccLoop, hsub]

theorem c10_unanchored_substring_witness :
    _processChainCodeOnEvents (hubPat "evtA") (blkName "xevtAB")
      = [⟨7, ⟨"cc", "xevtAB"⟩⟩] :=
  (c10_unanchored_substring "evtA" "xevtAB" (by decide)).trans (by decide)

end FabricSdk
